import Mathlib

/-!
Shallow embedding of the chat-response orchestration engine of the
repository: the `useChatEngine` hook with its `saveChats`,
`clearConversation` and `sendMessage` operations (source file
`src/unnamed/part_000`, lines 9-224).

Modelling choices:

* The process-wide mutable state (React `conversation` state, the
  persisted `chat_history` blob, the `conversationContext` singleton with
  its session messages, pending follow-up and user profile, the
  `cancellationRef` counter and the `isGenerating` flag) is gathered in
  `EngineState` and threaded explicitly.
* The external collaborators of one `sendMessage` call — `generateID` /
  `formatTime` outputs, the RAG collaborator (`ragService.processQuery`
  and `conversationContext.processFollowUpResponse`), the backend `fetch`
  to `BASE_URL/agent`, the local model `generateResponse`, the hook
  argument `context`, and whether `AsyncStorage.setItem` succeeds during
  the call — form the `Env` record.  Thrown collaborator errors are
  `Except.error`.
* Between the epoch capture (line 79) and the synchronous tail
  (lines 175-215) the only suspension points are the tier awaits, so the
  `clearConversation` calls that interleave with an in-flight
  `sendMessage` are modelled by a count `clears` applied between the tier
  phase and the post-processing; a clear at any of the tier suspension
  points has the same observable effect because the tiers read no state
  a clear mutates after their synchronous prefix.
* The `ConversationContext` implementation is not under src/ (only its
  call sites are); its methods (`addMessage`, `hasPendingFollowUp`,
  `setPendingFollowUp`, `clearPendingFollowUp`,
  `processFollowUpResponse` clearing the pending slot,
  `clearConversationHistory`, `setUserContext`) are modelled from the
  spec, section 4.2.
* Duck-typed tier results are modelled as `Option RagResult` (`none` is
  the JS `null`/`undefined`); a non-object truthy result would behave
  like `none` at the line-116 shape check and is always overwritten
  before the line-175 bookkeeping, so nothing observable is lost.
-/

/-- Role of a chat message (the `role` field, `"user"` or `"assistant"`). -/
inductive Role where
  | user
  | assistant
  deriving DecidableEq, Repr

/-- A chat message as built in `sendMessage` (lines 73-78 and 194-199):
`{ id, role, content, timestamp }`. -/
structure Message where
  id : String
  role : Role
  content : String
  timestamp : String
  deriving DecidableEq, Repr

/-- Duck-typed tier result object (spec section 6); absent fields are
`none` (respectively `false` for the boolean). -/
structure RagResult where
  message : Option String := none
  intent : Option String := none
  action : Option String := none
  requiresFollowUp : Bool := false
  partialData : Option (List (String × String)) := none
  missingFields : Option (List String) := none
  deriving DecidableEq, Repr

/-- Modelled from the spec: the PendingFollowUp record held by
ConversationContext (`{ intent, partialData, missingFields }`, spec
section 3); the ConversationContext implementation is not under src/. -/
structure PendingFollowUp where
  intent : String
  partialData : List (String × String)
  missingFields : List String
  deriving DecidableEq, Repr

/-- JavaScript truthiness of an optional string: `undefined` / `null` and
the empty string are falsy. -/
def jsTruthy : Option String → Bool
  | none => false
  | some s => !s.isEmpty

/-- Line-57 guard `!text || !text.trim()`: true iff the text is empty or
whitespace-only, i.e. iff it trims to the empty string. -/
def blankText (text : String) : Bool := text.data.all Char.isWhitespace

/-- Outcome of the Tier-B `fetch` to `BASE_URL/agent` (lines 129-154):
a network error or timeout, a non-success HTTP status (thrown at line 148
and caught at line 150), or a success body whose `response` field may be
absent. -/
inductive BackendOutcome where
  | netFail
  | httpFail (status : Nat)
  | ok (response : Option String)
  deriving DecidableEq, Repr

/-- External collaborators and nondeterministic inputs of one
`sendMessage` call. -/
structure Env where
  userMsgId : String
  botMsgId : String
  userMsgTime : String
  botMsgTime : String
  context : String
  ragFollowUp : String → Except String (Option RagResult)
  ragQuery : String → Except String (Option RagResult)
  backend : BackendOutcome
  localGen : List Message → Except String String
  saveOk : Bool

/-- Process-wide mutable state of the chat engine. -/
structure EngineState where
  conversation : List Message
  storage : List Message
  sessionMessages : List (Role × String)
  pendingFollowUp : Option PendingFollowUp
  userContext : String
  epoch : Nat
  isGenerating : Bool
  deriving DecidableEq, Repr

/-- `saveChats` (lines 39-45): writes the whole conversation to storage
under the single `chat_history` key; a failure is caught and logged,
leaving the previous blob in place. -/
def saveChats (ok : Bool) (newConversation : List Message)
    (st : List Message) : List Message :=
  if ok then newConversation else st

/-- `clearConversation` (lines 49-54): bumps the cancellation counter,
empties the conversation, empties the session context together with its
pending follow-up (`clearConversationHistory`, modelled from the spec,
section 4.2) and saves the empty conversation. -/
def clearConversation (saveOk : Bool) (s : EngineState) : EngineState :=
  { s with epoch := s.epoch + 1
         , conversation := []
         , sessionMessages := []
         , pendingFollowUp := none
         , storage := saveChats saveOk [] s.storage }

/-- `n` interleaved `clearConversation` calls applied in sequence. -/
def applyClears (saveOk : Bool) : Nat → EngineState → EngineState
  | 0, s => s
  | n + 1, s => applyClears saveOk n (clearConversation saveOk s)

/-- The user `Message` built at lines 73-78. -/
def mkUserMessage (env : Env) (text : String) : Message :=
  { id := env.userMsgId, role := Role.user, content := text
  , timestamp := env.userMsgTime }

/-- The assistant `Message` built at lines 194-199. -/
def mkBotMessage (env : Env) (content : String) : Message :=
  { id := env.botMsgId, role := Role.assistant, content := content
  , timestamp := env.botMsgTime }

/-- Trace of collaborator invocations during the tier phase. -/
inductive TierCall where
  | ragFollowUpCall (text : String)
  | ragQueryCall (text : String)
  | backendCall (query : String)
  | localGenCall (history : List Message)
  deriving DecidableEq, Repr

/-- `true` on the two Tier-A call shapes. -/
def TierCall.isRag : TierCall → Bool
  | TierCall.ragFollowUpCall _ => true
  | TierCall.ragQueryCall _ => true
  | _ => false

/-- `true` on the Tier-B call shape. -/
def TierCall.isBackend : TierCall → Bool
  | TierCall.backendCall _ => true
  | _ => false

/-- `true` on the Tier-C call shape. -/
def TierCall.isLocal : TierCall → Bool
  | TierCall.localGenCall _ => true
  | _ => false

/-- Accumulator of the tier phase: the `response` and `result` variables
of lines 94-95, the collaborator calls issued so far, whether the
follow-up path of Tier A ran (its spec postcondition clears the pending
slot), and the pending terminal throw of line 170. -/
structure TierAcc where
  response : Option String := none
  result : Option RagResult := none
  calls : List TierCall := []
  consumedFollowUp : Bool := false
  threw : Option String := none
  deriving DecidableEq, Repr

/-- The line-116 shape check: `response` is set only when the result is
an object with a truthy `message` field. -/
def shapeCheck : Option RagResult → Option String
  | some r => if jsTruthy r.message then r.message else none
  | none => none

/-- The single RAG attempt of lines 108-114: the follow-up path when a
pending follow-up exists, a fresh query otherwise; yields the `result`
value (null after a thrown error), the collaborator call issued, and
whether the follow-up path ran. -/
def ragAttempt (env : Env) (text : String) (hasPending : Bool) :
    Option RagResult × TierCall × Bool :=
  if hasPending then
    match env.ragFollowUp text with
    | Except.ok r => (r, TierCall.ragFollowUpCall text, true)
    | Except.error _ => (none, TierCall.ragFollowUpCall text, true)
  else
    match env.ragQuery text with
    | Except.ok r => (r, TierCall.ragQueryCall text, false)
    | Except.error _ => (none, TierCall.ragQueryCall text, false)

/-- Tier A (lines 106-124): only if RAG mode is on; routes through the
follow-up path when a pending follow-up exists; a thrown error leaves
`result` null; `response` is set only through the line-116 shape
check. -/
def tierAStep (env : Env) (text : String) (useRAGMode : Bool)
    (hasPending : Bool) : TierAcc :=
  if useRAGMode then
    let outcome := ragAttempt env text hasPending
    { response := shapeCheck outcome.1, result := outcome.1
    , calls := [outcome.2.1], consumedFollowUp := outcome.2.2
    , threw := none }
  else
    { response := none, result := none, calls := []
    , consumedFollowUp := false, threw := none }

/-- Tier B (lines 126-155): attempted iff no usable response yet; on a
success status `response` becomes the body `response` field (assigned
before any truthiness check, line 144) and `result` becomes the
`backend_fallback` record (line 146); any failure is caught and falls
through. -/
def tierBStep (env : Env) (text : String) (acc : TierAcc) : TierAcc :=
  if jsTruthy acc.response then acc
  else
    match env.backend with
    | BackendOutcome.ok resp =>
        { acc with
          response := resp
        , result := some { message := resp
                         , intent := some "backend_fallback"
                         , action := none }
        , calls := acc.calls ++ [TierCall.backendCall text] }
    | _ => { acc with calls := acc.calls ++ [TierCall.backendCall text] }

/-- Tier C (lines 157-172): attempted iff still no usable response;
receives `modelHistory` (the line-99 conversation snapshot plus the new
user message); on failure records the terminal throw of line 170. -/
def tierCStep (env : Env) (modelHistory : List Message)
    (acc : TierAcc) : TierAcc :=
  if jsTruthy acc.response then acc
  else
    match env.localGen modelHistory with
    | Except.ok resp =>
        { acc with
          response := some resp
        , result := some { message := some resp
                         , intent := some "local_llm"
                         , action := none }
        , calls := acc.calls ++ [TierCall.localGenCall modelHistory] }
    | Except.error _ =>
        { acc with
          calls := acc.calls ++ [TierCall.localGenCall modelHistory]
        , threw := some "All AI services failed. Please try again later." }

/-- The whole tier phase of `sendMessage` (lines 94-172). -/
def runTiers (env : Env) (text : String) (useRAGMode : Bool)
    (hasPending : Bool) (modelHistory : List Message) : TierAcc :=
  tierCStep env modelHistory
    (tierBStep env text (tierAStep env text useRAGMode hasPending))

/-- Outcome of one `sendMessage` call as seen by its caller.  `thrown` is
the shape of a rejected promise; it is included so that theorems can
state that `sendMessage` never produces it (every internal error is
caught at lines 210-215 and surfaced as an alert, after which the call
resolves with no value). -/
inductive SendOutcome where
  | noop
  | cancelled
  | ok (result : Option RagResult)
  | alerted (message : String)
  | thrown (message : String)
  deriving DecidableEq, Repr

/-- Result descriptor the caller receives: `some` only on the `return
result` path of line 208. -/
def SendOutcome.returnValue : SendOutcome → Option RagResult
  | SendOutcome.ok r => r
  | _ => none

/-- Whether the call rejected with an error. -/
def SendOutcome.isThrown : SendOutcome → Bool
  | SendOutcome.thrown _ => true
  | _ => false

/-- Whether the call surfaced the terminal alert. -/
def SendOutcome.isAlerted : SendOutcome → Bool
  | SendOutcome.alerted _ => true
  | _ => false

/-- Line-176 condition deciding whether a PendingFollowUp is registered:
`result.requiresFollowUp && result.intent && result.partialData &&
result.missingFields` under JavaScript truthiness. -/
def RagResult.followUpCond (r : RagResult) : Bool :=
  r.requiresFollowUp && jsTruthy r.intent && r.partialData.isSome
    && r.missingFields.isSome

/-- Follow-up bookkeeping (lines 175-185) applied to the pending slot:
register when the line-176 condition holds, otherwise clear; skipped
when `result` is null. `setPendingFollowUp` / `clearPendingFollowUp`
are modelled from the spec, section 4.2. -/
def bookkeepPending (result : Option RagResult)
    (pending : Option PendingFollowUp) : Option PendingFollowUp :=
  match result with
  | some r =>
      if r.followUpCond then
        some { intent := r.intent.getD ""
             , partialData := r.partialData.getD []
             , missingFields := r.missingFields.getD [] }
      else none
  | none => pending

/-- Synchronous prefix of `sendMessage` after the empty-text guard
(lines 82-91): append the user turn to the session context
(`addMessage`, modelled from the spec), raise `isGenerating`, append the
user `Message` to the conversation through the functional update and
save the new history. -/
def sendPhase1 (env : Env) (text : String) (s0 : EngineState) : EngineState :=
  let withSession :=
    { s0 with sessionMessages := s0.sessionMessages ++ [(Role.user, text)] }
  let generating := { withSession with isGenerating := true }
  let newHistory := generating.conversation ++ [mkUserMessage env text]
  { generating with
    conversation := newHistory
  , storage := saveChats env.saveOk newHistory generating.storage }

/-- Tier phase as `sendMessage` invokes it: the pending slot is untouched
between the line-79 epoch capture and the line-108 `hasPendingFollowUp`
read, so the read sees the start-state value; the model history is the
line-99 closure snapshot of the conversation plus the new user message. -/
def sendTiers (env : Env) (text : String) (useRAGMode : Bool)
    (s0 : EngineState) : TierAcc :=
  runTiers env text useRAGMode s0.pendingFollowUp.isSome
    (s0.conversation ++ [mkUserMessage env text])

/-- `sendMessage` (lines 56-216).  `clears` is the number of
`clearConversation` calls that interleave at the tier-phase suspension
points, the only awaits between the line-79 epoch capture and the
synchronous tail of lines 175-215.  The best-effort initializer call of
lines 60-66 only touches external collaborator state and is absorbed
into the start state.  Returns the final state, the outcome the caller
observes and the trace of tier collaborator invocations. -/
def sendMessage (env : Env) (text : String) (useRAGMode : Bool)
    (clears : Nat) (s0 : EngineState) :
    EngineState × SendOutcome × List TierCall :=
  if blankText text then (s0, SendOutcome.noop, [])
  else
    let cancellationId := s0.epoch
    let s1 := sendPhase1 env text s0
    let s2 := { s1 with userContext := env.context }
    let t := sendTiers env text useRAGMode s0
    let s3 := if t.consumedFollowUp then { s2 with pendingFollowUp := none } else s2
    let s4 := applyClears env.saveOk clears s3
    match t.threw with
    | some msg =>
        ({ s4 with isGenerating := false }
        , SendOutcome.alerted ("Failed to generate response: " ++ msg)
        , t.calls)
    | none =>
        let s5 := { s4 with
                    pendingFollowUp := bookkeepPending t.result s4.pendingFollowUp }
        if cancellationId ≠ s4.epoch then
          ({ s5 with isGenerating := false }, SendOutcome.cancelled, t.calls)
        else
          if jsTruthy t.response then
            let newHistory := s5.conversation ++ [mkBotMessage env (t.response.getD "")]
            ({ s5 with
               conversation := newHistory
             , storage := saveChats env.saveOk newHistory s5.storage
             , sessionMessages :=
                 s5.sessionMessages ++ [(Role.assistant, t.response.getD "")]
             , isGenerating := false }
            , SendOutcome.ok t.result, t.calls)
          else
            ({ s5 with isGenerating := false }, SendOutcome.ok t.result, t.calls)

/-- The RAG collaborator outcome Tier A observes (follow-up path or
fresh query). -/
def ragOutcome (env : Env) (text : String) (hasPending : Bool) :
    Except String (Option RagResult) :=
  if hasPending then env.ragFollowUp text else env.ragQuery text

/-- Tier A yields a usable (non-empty `message`) response. -/
def tierAWins (env : Env) (text : String) (useRAGMode : Bool)
    (hasPending : Bool) : Bool :=
  useRAGMode &&
    match ragOutcome env text hasPending with
    | Except.ok (some r) => jsTruthy r.message
    | _ => false

/-- Tier B yields a usable (truthy body `response`) response. -/
def tierBWins (env : Env) : Bool :=
  match env.backend with
  | BackendOutcome.ok resp => jsTruthy resp
  | _ => false

/-- Tier C (the local model) fails. -/
def tierCFails (env : Env) (modelHistory : List Message) : Bool :=
  match env.localGen modelHistory with
  | Except.error _ => true
  | Except.ok _ => false

/-- The Tier-A call shape issued on a given pending-follow-up state. -/
def ragCallOf (hasPending : Bool) (text : String) : TierCall :=
  if hasPending then TierCall.ragFollowUpCall text
  else TierCall.ragQueryCall text

/-- Specification-side closed form of the tier-invocation trace: Tier A
iff RAG mode is on, then Tier B unless A won, then Tier C unless A or B
won. -/
def expectedCalls (env : Env) (text : String) (useRAGMode : Bool)
    (hasPending : Bool) (modelHistory : List Message) : List TierCall :=
  (if useRAGMode then [ragCallOf hasPending text] else []) ++
    if tierAWins env text useRAGMode hasPending then []
    else
      TierCall.backendCall text ::
        if tierBWins env then [] else [TierCall.localGenCall modelHistory]

/-- Projection of a `Message` to the (role, content) pair the session
context stores. -/
def msgPair (m : Message) : Role × String := (m.role, m.content)

/-- Terminal alert text of lines 170 and 211. -/
def terminalAlert : String :=
  "Failed to generate response: All AI services failed. Please try again later."

/-- Empty start state used by the concrete witnesses. -/
def s00 : EngineState :=
  { conversation := [], storage := [], sessionMessages := []
  , pendingFollowUp := none, userContext := "", epoch := 0
  , isGenerating := false }

/-- Witness environment: RAG down, backend unreachable, local model
answers `"Hi"`, storage healthy. -/
def baseEnv : Env :=
  { userMsgId := "u1", botMsgId := "b1", userMsgTime := "09:00"
  , botMsgTime := "09:01", context := "profile"
  , ragFollowUp := fun _ => Except.error "rag down"
  , ragQuery := fun _ => Except.error "rag down"
  , backend := BackendOutcome.netFail
  , localGen := fun _ => Except.ok "Hi"
  , saveOk := true }

/-- Witness environment in which every tier fails. -/
def envAllFail : Env :=
  { baseEnv with localGen := fun _ => Except.error "model crashed" }

/-- Witness environment in which storage writes fail. -/
def envSaveFail : Env := { baseEnv with saveOk := false }

/-- A Tier-A result that requests a follow-up. -/
def followUpResult : RagResult :=
  { message := some "Which date?", intent := some "book_visit"
  , action := none, requiresFollowUp := true
  , partialData := some [("topic", "visit")]
  , missingFields := some ["date"] }

/-- Witness environment in which the fresh RAG query wins and requests a
follow-up. -/
def envFollowUp : Env :=
  { baseEnv with ragQuery := fun _ => Except.ok (some followUpResult) }


theorem ragAttempt_fst (env : Env) (text : String) (hp : Bool) :
    (ragAttempt env text hp).1 =
      match ragOutcome env text hp with
      | Except.ok r => r
      | Except.error _ => none := by
  unfold ragAttempt ragOutcome
  cases hp <;> simp
  · cases env.ragQuery text <;> simp
  · cases env.ragFollowUp text <;> simp

theorem ragAttempt_call (env : Env) (text : String) (hp : Bool) :
    (ragAttempt env text hp).2.1 = ragCallOf hp text := by
  unfold ragAttempt ragCallOf
  cases hp <;> simp
  · cases env.ragQuery text <;> simp
  · cases env.ragFollowUp text <;> simp

theorem ragAttempt_consumed (env : Env) (text : String) (hp : Bool) :
    (ragAttempt env text hp).2.2 = hp := by
  unfold ragAttempt
  cases hp <;> simp
  · cases env.ragQuery text <;> simp
  · cases env.ragFollowUp text <;> simp

theorem jsTruthy_shapeCheck (result : Option RagResult) :
    jsTruthy (shapeCheck result) =
      match result with
      | some r => jsTruthy r.message
      | none => false := by
  cases result with
  | none => rfl
  | some r =>
    simp only [shapeCheck]
    cases hm : jsTruthy r.message with
    | true => simp [hm]
    | false => simp [hm, jsTruthy]

theorem tierA_threw (env : Env) (text : String) (u hp : Bool) :
    (tierAStep env text u hp).threw = none := by
  unfold tierAStep
  cases u <;> simp

theorem tierA_calls (env : Env) (text : String) (u hp : Bool) :
    (tierAStep env text u hp).calls = if u then [ragCallOf hp text] else [] := by
  unfold tierAStep
  cases u <;> simp [ragAttempt_call]

theorem tierA_consumed (env : Env) (text : String) (u hp : Bool) :
    (tierAStep env text u hp).consumedFollowUp = (u && hp) := by
  unfold tierAStep
  cases u <;> simp [ragAttempt_consumed]

theorem tierA_response (env : Env) (text : String) (u hp : Bool) :
    jsTruthy (tierAStep env text u hp).response = tierAWins env text u hp := by
  unfold tierAStep tierAWins
  cases u with
  | false => simp [jsTruthy]
  | true =>
    simp only [if_pos, jsTruthy_shapeCheck, ragAttempt_fst, Bool.true_and, if_true]
    cases h : ragOutcome env text hp with
    | ok r => cases r <;> simp
    | error e => simp

theorem tierA_result (env : Env) (text : String) (u hp : Bool) :
    (tierAStep env text u hp).result =
      if u then (ragAttempt env text hp).1 else none := by
  unfold tierAStep
  cases u <;> simp

theorem tierB_threw (env : Env) (text : String) (acc : TierAcc) :
    (tierBStep env text acc).threw = acc.threw := by
  unfold tierBStep
  cases h : jsTruthy acc.response <;> simp
  cases env.backend <;> simp

theorem tierB_consumed (env : Env) (text : String) (acc : TierAcc) :
    (tierBStep env text acc).consumedFollowUp = acc.consumedFollowUp := by
  unfold tierBStep
  cases h : jsTruthy acc.response <;> simp
  cases env.backend <;> simp

theorem tierB_calls (env : Env) (text : String) (acc : TierAcc) :
    (tierBStep env text acc).calls =
      acc.calls ++
        if jsTruthy acc.response then [] else [TierCall.backendCall text] := by
  unfold tierBStep
  cases h : jsTruthy acc.response <;> simp
  cases env.backend <;> simp

theorem tierB_response (env : Env) (text : String) (acc : TierAcc) :
    jsTruthy (tierBStep env text acc).response =
      (jsTruthy acc.response || tierBWins env) := by
  unfold tierBStep tierBWins
  cases h : jsTruthy acc.response with
  | true => simp [h]
  | false =>
    simp only [Bool.false_or, if_neg]
    cases hb : env.backend <;> simp [h]

theorem tierC_threw (env : Env) (mh : List Message) (acc : TierAcc) :
    (tierCStep env mh acc).threw =
      if !jsTruthy acc.response && tierCFails env mh then
        some "All AI services failed. Please try again later."
      else acc.threw := by
  unfold tierCStep tierCFails
  cases h : jsTruthy acc.response with
  | true => simp [h]
  | false => cases hl : env.localGen mh <;> simp [h]

theorem tierC_calls (env : Env) (mh : List Message) (acc : TierAcc) :
    (tierCStep env mh acc).calls =
      acc.calls ++
        if jsTruthy acc.response then [] else [TierCall.localGenCall mh] := by
  unfold tierCStep
  cases h : jsTruthy acc.response <;> simp
  cases env.localGen mh <;> simp

theorem tierC_consumed (env : Env) (mh : List Message) (acc : TierAcc) :
    (tierCStep env mh acc).consumedFollowUp = acc.consumedFollowUp := by
  unfold tierCStep
  cases h : jsTruthy acc.response <;> simp
  cases env.localGen mh <;> simp

theorem runTiers_calls (env : Env) (text : String) (u hp : Bool)
    (mh : List Message) :
    (runTiers env text u hp mh).calls = expectedCalls env text u hp mh := by
  unfold runTiers expectedCalls
  rw [tierC_calls, tierB_calls, tierB_response, tierA_calls, tierA_response]
  cases ha : tierAWins env text u hp <;> cases hb : tierBWins env <;>
    cases u <;> simp

theorem runTiers_threw (env : Env) (text : String) (u hp : Bool)
    (mh : List Message) :
    (runTiers env text u hp mh).threw =
      if !(tierAWins env text u hp || tierBWins env) && tierCFails env mh then
        some "All AI services failed. Please try again later."
      else none := by
  unfold runTiers
  rw [tierC_threw, tierB_response, tierA_response, tierB_threw, tierA_threw]

theorem runTiers_consumed (env : Env) (text : String) (u hp : Bool)
    (mh : List Message) :
    (runTiers env text u hp mh).consumedFollowUp = (u && hp) := by
  unfold runTiers
  rw [tierC_consumed, tierB_consumed, tierA_consumed]

theorem applyClears_succ_eq (ok : Bool) (n : Nat) (s : EngineState) :
    applyClears ok (n + 1) s =
      { s with epoch := s.epoch + (n + 1)
             , conversation := []
             , sessionMessages := []
             , pendingFollowUp := none
             , storage := saveChats ok [] s.storage } := by
  induction n generalizing s with
  | zero => rfl
  | succ k ih =>
    show applyClears ok (k + 1) (clearConversation ok s) = _
    rw [ih]
    unfold clearConversation saveChats
    cases ok <;> simp <;> omega

theorem applyClears_epoch (ok : Bool) (n : Nat) (s : EngineState) :
    (applyClears ok n s).epoch = s.epoch + n := by
  cases n with
  | zero => rfl
  | succ k => rw [applyClears_succ_eq]

theorem sendMessage_calls_eq (env : Env) (text : String) (u : Bool)
    (clears : Nat) (s0 : EngineState)
    (ht : blankText text = false) :
    (sendMessage env text u clears s0).2.2 = (sendTiers env text u s0).calls := by
  simp only [sendMessage, ht, Bool.false_eq_true, if_false]
  cases hth : (sendTiers env text u s0).threw
  · simp only [hth,
      apply_ite (fun x : EngineState × SendOutcome × List TierCall => x.2.2),
      ite_self]
  · simp only [hth]

theorem sendMessage_cancelled_eq (env : Env) (text : String) (u : Bool)
    (clears : Nat) (s0 : EngineState)
    (ht : blankText text = false) (hc : 1 ≤ clears)
    (hthrew : (sendTiers env text u s0).threw = none) :
    sendMessage env text u clears s0 =
      ({ conversation := []
       , storage := if env.saveOk then [] else s0.storage
       , sessionMessages := []
       , pendingFollowUp := bookkeepPending (sendTiers env text u s0).result none
       , userContext := env.context
       , epoch := s0.epoch + clears
       , isGenerating := false }
      , SendOutcome.cancelled
      , (sendTiers env text u s0).calls) := by
  obtain ⟨k, rfl⟩ : ∃ k, clears = k + 1 := ⟨clears - 1, by omega⟩
  simp only [sendMessage, ht, Bool.false_eq_true, if_false, hthrew]
  cases hcon : (sendTiers env text u (s0 : EngineState)).consumedFollowUp <;>
    cases hok : env.saveOk <;>
      simp [hcon, hok, applyClears_succ_eq, sendPhase1, saveChats,
        EngineState.mk.injEq]

theorem sendMessage_alerted_outcome (env : Env) (text : String) (u : Bool)
    (clears : Nat) (s0 : EngineState) (m : String)
    (ht : blankText text = false)
    (hthrew : (sendTiers env text u s0).threw = some m) :
    (sendMessage env text u clears s0).2.1 =
      SendOutcome.alerted ("Failed to generate response: " ++ m) := by
  simp only [sendMessage, ht, Bool.false_eq_true, if_false, hthrew]

theorem sendMessage_alerted_zero_eq (env : Env) (text : String) (u : Bool)
    (s0 : EngineState) (m : String)
    (ht : blankText text = false)
    (hthrew : (sendTiers env text u s0).threw = some m) :
    sendMessage env text u 0 s0 =
      ({ conversation := s0.conversation ++ [mkUserMessage env text]
       , storage := saveChats env.saveOk
           (s0.conversation ++ [mkUserMessage env text]) s0.storage
       , sessionMessages := s0.sessionMessages ++ [(Role.user, text)]
       , pendingFollowUp :=
           if (sendTiers env text u s0).consumedFollowUp then none
           else s0.pendingFollowUp
       , userContext := env.context
       , epoch := s0.epoch
       , isGenerating := false }
      , SendOutcome.alerted ("Failed to generate response: " ++ m)
      , (sendTiers env text u s0).calls) := by
  simp only [sendMessage, ht, Bool.false_eq_true, if_false, hthrew]
  cases hcon : (sendTiers env text u s0).consumedFollowUp <;>
    simp [hcon, applyClears, sendPhase1, EngineState.mk.injEq]

theorem sendMessage_ok_outcome (env : Env) (text : String) (u : Bool)
    (s0 : EngineState)
    (ht : blankText text = false)
    (hthrew : (sendTiers env text u s0).threw = none) :
    (sendMessage env text u 0 s0).2.1 =
      SendOutcome.ok (sendTiers env text u s0).result := by
  simp only [sendMessage, ht, Bool.false_eq_true, if_false, hthrew]
  cases hcon : (sendTiers env text u s0).consumedFollowUp <;>
    simp [hcon, applyClears, sendPhase1] <;>
    split <;> rfl

theorem sendMessage_storage_eq_conversation (env : Env) (text : String)
    (u : Bool) (s0 : EngineState)
    (ht : blankText text = false)
    (hthrew : (sendTiers env text u s0).threw = none)
    (hsave : env.saveOk = true) :
    (sendMessage env text u 0 s0).1.storage =
      (sendMessage env text u 0 s0).1.conversation := by
  simp only [sendMessage, ht, Bool.false_eq_true, if_false, hthrew]
  cases hcon : (sendTiers env text u s0).consumedFollowUp <;>
    simp [hcon, applyClears, sendPhase1, saveChats, hsave] <;>
    split <;> simp [saveChats, hsave]

theorem sendMessage_isGenerating_false (env : Env) (text : String) (u : Bool)
    (clears : Nat) (s0 : EngineState)
    (ht : blankText text = false) :
    (sendMessage env text u clears s0).1.isGenerating = false := by
  simp only [sendMessage, ht, Bool.false_eq_true, if_false]
  cases hth : (sendTiers env text u s0).threw
  · simp only [hth,
      apply_ite (fun x : EngineState × SendOutcome × List TierCall =>
        x.1.isGenerating),
      ite_self]
  · simp only [hth]

theorem sendMessage_never_throws (env : Env) (text : String) (u : Bool)
    (clears : Nat) (s0 : EngineState) :
    (sendMessage env text u clears s0).2.1.isThrown = false := by
  by_cases ht : blankText text = true
  · simp [sendMessage, ht, SendOutcome.isThrown]
  · have ht2 : blankText text = false := by simpa using ht
    cases hth : (sendTiers env text u s0).threw with
    | none =>
      cases clears with
      | zero => rw [sendMessage_ok_outcome env text u s0 ht2 hth]; rfl
      | succ k =>
        rw [sendMessage_cancelled_eq env text u (k + 1) s0 ht2 (by omega) hth]
        rfl
    | some m =>
      rw [sendMessage_alerted_outcome env text u clears s0 m ht2 hth]
      rfl

theorem sendMessage_isAlerted_char (env : Env) (text : String) (u : Bool)
    (clears : Nat) (s0 : EngineState)
    (ht : blankText text = false) :
    (sendMessage env text u clears s0).2.1.isAlerted =
      (!(tierAWins env text u s0.pendingFollowUp.isSome || tierBWins env) &&
        tierCFails env (s0.conversation ++ [mkUserMessage env text])) := by
  have hth := runTiers_threw env text u s0.pendingFollowUp.isSome
    (s0.conversation ++ [mkUserMessage env text])
  by_cases hcond :
      (!(tierAWins env text u s0.pendingFollowUp.isSome || tierBWins env) &&
        tierCFails env (s0.conversation ++ [mkUserMessage env text])) = true
  · rw [hcond] at hth
    simp only [if_true] at hth
    rw [sendMessage_alerted_outcome env text u clears s0 _ ht hth, hcond]
    rfl
  · have hcond2 := Bool.not_eq_true _ |>.mp hcond
    rw [hcond2] at hth
    simp only [Bool.false_eq_true, if_false] at hth
    rw [hcond2]
    cases clears with
    | zero =>
      rw [sendMessage_ok_outcome env text u s0 ht hth]
      rfl
    | succ k =>
      rw [sendMessage_cancelled_eq env text u (k + 1) s0 ht (by omega) hth]
      rfl

theorem mem_expectedCalls_localGen (env : Env) (text : String) (u hp : Bool)
    (mh : List Message) (h : List Message)
    (hmem : TierCall.localGenCall h ∈ expectedCalls env text u hp mh) :
    h = mh := by
  unfold expectedCalls ragCallOf at hmem
  cases ha : tierAWins env text u hp <;> cases hb : tierBWins env <;>
    cases u <;> cases hp <;> simp_all

theorem sendTiers_calls (env : Env) (text : String) (u : Bool)
    (s0 : EngineState) :
    (sendTiers env text u s0).calls =
      expectedCalls env text u s0.pendingFollowUp.isSome
        (s0.conversation ++ [mkUserMessage env text]) :=
  runTiers_calls env text u s0.pendingFollowUp.isSome
    (s0.conversation ++ [mkUserMessage env text])

/-- C1: for every `sendMessage` call with non-blank text the tier trace
is exactly the closed form `expectedCalls` — Tier A first and only when
RAG mode is on, then Tier B unless A yielded a non-empty message, then
Tier C unless A or B did — so the first tier to yield a non-empty
message wins and the remaining tiers are not invoked for that turn. -/
theorem sendMessage_tier_order (env : Env) (text : String)
    (useRAGMode : Bool) (clears : Nat) (s0 : EngineState)
    (ht : blankText text = false) :
    (sendMessage env text useRAGMode clears s0).2.2 =
      expectedCalls env text useRAGMode s0.pendingFollowUp.isSome
        (s0.conversation ++ [mkUserMessage env text])
    ∧ (tierAWins env text useRAGMode s0.pendingFollowUp.isSome = true →
        (sendMessage env text useRAGMode clears s0).2.2 =
          [ragCallOf s0.pendingFollowUp.isSome text])
    ∧ (tierBWins env = true →
        (sendMessage env text useRAGMode clears s0).2.2.countP
          TierCall.isLocal = 0) := by
  have hcalls : (sendMessage env text useRAGMode clears s0).2.2 =
      expectedCalls env text useRAGMode s0.pendingFollowUp.isSome
        (s0.conversation ++ [mkUserMessage env text]) := by
    rw [sendMessage_calls_eq env text useRAGMode clears s0 ht,
      sendTiers_calls]
  refine ⟨hcalls, ?_, ?_⟩
  · intro ha
    have hu : useRAGMode = true := by
      unfold tierAWins at ha
      exact (Bool.and_eq_true _ _ |>.mp ha).1
    subst hu
    rw [hcalls]
    unfold expectedCalls
    simp [ha]
  · intro hb
    rw [hcalls]
    unfold expectedCalls ragCallOf
    cases ha : tierAWins env text useRAGMode s0.pendingFollowUp.isSome <;>
      cases useRAGMode <;> cases hp0 : s0.pendingFollowUp.isSome <;>
        simp_all [TierCall.isLocal]

/-- C1 witness -/
theorem sendMessage_tier_order_witness :
    (sendMessage baseEnv "Hello" false 0 s00).2.2 =
      [TierCall.backendCall "Hello",
       TierCall.localGenCall [mkUserMessage baseEnv "Hello"]] := by
  rw [(sendMessage_tier_order baseEnv "Hello" false 0 s00 (by decide)).1]
  decide

/-- C2: when a clear occurred while the generation was in flight (epoch
mismatch at the commit point) and the tier phase reached the commit
point, the assistant response is discarded: the outcome is `cancelled`
(nothing surfaced to the caller) and the final conversation, session
context and persisted blob hold no assistant message — they are exactly
what the interleaved clears left.  The user message was appended by the
step-1 prefix (last conjunct); its absence from the final state is the
clear emptying the conversation, not a retraction by `sendMessage`. -/
theorem sendMessage_cancelled_discards (env : Env) (text : String)
    (useRAGMode : Bool) (clears : Nat) (s0 : EngineState)
    (ht : blankText text = false) (hc : 1 ≤ clears)
    (hcommit : (sendTiers env text useRAGMode s0).threw = none) :
    (sendMessage env text useRAGMode clears s0).2.1 = SendOutcome.cancelled
    ∧ (sendMessage env text useRAGMode clears s0).1.conversation = []
    ∧ (sendMessage env text useRAGMode clears s0).1.sessionMessages = []
    ∧ (sendMessage env text useRAGMode clears s0).1.storage =
        (if env.saveOk then [] else s0.storage)
    ∧ (sendPhase1 env text s0).conversation =
        s0.conversation ++ [mkUserMessage env text] := by
  rw [sendMessage_cancelled_eq env text useRAGMode clears s0 ht hc hcommit]
  refine ⟨rfl, rfl, rfl, rfl, ?_⟩
  simp [sendPhase1]

/-- C2 witness -/
theorem sendMessage_cancelled_discards_witness :
    (sendMessage baseEnv "Hello" false 1 s00).2.1 = SendOutcome.cancelled
    ∧ (sendMessage baseEnv "Hello" false 1 s00).1.conversation = []
    ∧ (sendMessage baseEnv "Hello" false 1 s00).1.sessionMessages = []
    ∧ (sendMessage baseEnv "Hello" false 1 s00).1.storage = [] := by
  have h := sendMessage_cancelled_discards baseEnv "Hello" false 1 s00
    (by decide) (by omega) (by decide)
  exact ⟨h.1, h.2.1, h.2.2.1, by rw [h.2.2.2.1]; decide⟩

/-- C3 counterexample: with every tier failing, `sendMessage` does not
reject (no error propagates to the caller); it resolves normally after
surfacing the terminal alert, so the claim that the caller receives a
thrown TerminalFailure is false on the code. -/
theorem sendMessage_thrown_terminal_cex :
    (sendMessage envAllFail "Hello" false 0 s00).2.1.isThrown = false
    ∧ (sendMessage envAllFail "Hello" false 0 s00).2.1 =
        SendOutcome.alerted terminalAlert := by
  constructor
  · rfl
  · rfl

/-- C3 (amended): `sendMessage` never rejects; the terminal alert is the
only surfaced error and occurs exactly when Tiers A and B produce no
usable response and Tier C fails; in that case (with no interleaved
clear) the conversation gains only the user message of the call. -/
theorem sendMessage_terminal_failure_surfaced (env : Env) (text : String)
    (useRAGMode : Bool) (clears : Nat) (s0 : EngineState)
    (ht : blankText text = false) :
    (sendMessage env text useRAGMode clears s0).2.1.isThrown = false
    ∧ (sendMessage env text useRAGMode clears s0).2.1.isAlerted =
        (!(tierAWins env text useRAGMode s0.pendingFollowUp.isSome ||
            tierBWins env) &&
          tierCFails env (s0.conversation ++ [mkUserMessage env text]))
    ∧ (clears = 0 →
        (!(tierAWins env text useRAGMode s0.pendingFollowUp.isSome ||
            tierBWins env) &&
          tierCFails env (s0.conversation ++ [mkUserMessage env text])) = true →
        (sendMessage env text useRAGMode clears s0).1.conversation =
          s0.conversation ++ [mkUserMessage env text]
        ∧ (sendMessage env text useRAGMode clears s0).1.isGenerating = false) := by
  refine ⟨sendMessage_never_throws env text useRAGMode clears s0,
    sendMessage_isAlerted_char env text useRAGMode clears s0 ht, ?_⟩
  intro hz hcond
  subst hz
  have hth := runTiers_threw env text useRAGMode s0.pendingFollowUp.isSome
    (s0.conversation ++ [mkUserMessage env text])
  rw [hcond] at hth
  simp only [if_true] at hth
  rw [sendMessage_alerted_zero_eq env text useRAGMode s0 _ ht hth]
  exact ⟨rfl, rfl⟩

/-- C3 witness -/
theorem sendMessage_terminal_failure_surfaced_witness :
    (sendMessage envAllFail "Hello" false 0 s00).1.conversation =
      [mkUserMessage envAllFail "Hello"]
    ∧ (sendMessage envAllFail "Hello" false 0 s00).2.1.isAlerted = true := by
  have h := sendMessage_terminal_failure_surfaced envAllFail "Hello" false 0
    s00 (by decide)
  refine ⟨?_, ?_⟩
  · have h3 := (h.2.2 rfl (by decide)).1
    simpa using h3
  · rw [h.2.1]
    decide

/-- C4 counterexample: with a failing storage collaborator, a fully
successful send (a tier produced a response, no cancellation, the call
returns its result descriptor) leaves the persisted blob different from
the in-memory conversation, so the claim fails as stated. -/
theorem sendMessage_persist_mismatch_cex :
    (sendMessage envSaveFail "Hello" false 0 s00).2.1 =
      SendOutcome.ok (some { message := some "Hi", intent := some "local_llm"
                           , action := none })
    ∧ (sendMessage envSaveFail "Hello" false 0 s00).1.storage ≠
        (sendMessage envSaveFail "Hello" false 0 s00).1.conversation := by
  constructor
  · rfl
  · decide

/-- C4 (amended): for every send that returns successfully (no terminal
throw, no interleaved clear) and whose storage writes succeed, the
persisted conversation equals the in-memory conversation immediately
after the call returns; each save writes the whole conversation in one
operation. -/
theorem sendMessage_persisted_matches_memory (env : Env) (text : String)
    (useRAGMode : Bool) (s0 : EngineState)
    (ht : blankText text = false)
    (hcommit : (sendTiers env text useRAGMode s0).threw = none)
    (hsave : env.saveOk = true) :
    (sendMessage env text useRAGMode 0 s0).2.1 =
      SendOutcome.ok (sendTiers env text useRAGMode s0).result
    ∧ (sendMessage env text useRAGMode 0 s0).1.storage =
        (sendMessage env text useRAGMode 0 s0).1.conversation :=
  ⟨sendMessage_ok_outcome env text useRAGMode s0 ht hcommit,
    sendMessage_storage_eq_conversation env text useRAGMode s0 ht hcommit hsave⟩

/-- C4 witness -/
theorem sendMessage_persisted_matches_memory_witness :
    (sendMessage baseEnv "Hello" false 0 s00).1.storage =
      (sendMessage baseEnv "Hello" false 0 s00).1.conversation :=
  (sendMessage_persisted_matches_memory baseEnv "Hello" false s00
    (by decide) (by decide) rfl).2

/-- C5: when the winning tier result is present, the follow-up
bookkeeping of lines 175-185 takes effect even on a run that the
cancellation guard then discards: the final pending follow-up is
registered or cleared exactly per the line-176 condition although the
outcome is `cancelled`. -/
theorem sendMessage_followup_bookkeeping_survives_cancellation (env : Env)
    (text : String) (useRAGMode : Bool) (clears : Nat) (s0 : EngineState)
    (r : RagResult)
    (ht : blankText text = false) (hc : 1 ≤ clears)
    (hcommit : (sendTiers env text useRAGMode s0).threw = none)
    (hr : (sendTiers env text useRAGMode s0).result = some r) :
    (sendMessage env text useRAGMode clears s0).1.pendingFollowUp =
      (if r.followUpCond then
          some { intent := r.intent.getD ""
               , partialData := r.partialData.getD []
               , missingFields := r.missingFields.getD [] }
        else none)
    ∧ (sendMessage env text useRAGMode clears s0).2.1 =
        SendOutcome.cancelled := by
  rw [sendMessage_cancelled_eq env text useRAGMode clears s0 ht hc hcommit]
  refine ⟨?_, rfl⟩
  simp [bookkeepPending, hr]

/-- C5 witness -/
theorem sendMessage_followup_bookkeeping_witness :
    (sendMessage envFollowUp "Hello" true 1 s00).1.pendingFollowUp =
      some { intent := "book_visit", partialData := [("topic", "visit")]
           , missingFields := ["date"] }
    ∧ (sendMessage envFollowUp "Hello" true 1 s00).2.1 =
        SendOutcome.cancelled := by
  have h := sendMessage_followup_bookkeeping_survives_cancellation envFollowUp
    "Hello" true 1 s00 followUpResult (by decide) (by omega) (by decide)
    (by decide)
  refine ⟨?_, h.2⟩
  rw [h.1]
  decide

/-- C6: whenever the UI conversation and the session context hold the
same dialogue (the invariant the engine maintains), any Tier-C
invocation of a `sendMessage` call receives exactly that dialogue plus
the just-added user message as its prompting context. -/
theorem sendMessage_tierC_prompt_context (env : Env) (text : String)
    (useRAGMode : Bool) (clears : Nat) (s0 : EngineState)
    (ht : blankText text = false)
    (hsync : s0.conversation.map msgPair = s0.sessionMessages)
    (h : List Message)
    (hmem : TierCall.localGenCall h ∈ (sendMessage env text useRAGMode clears s0).2.2) :
    h.map msgPair = s0.sessionMessages ++ [(Role.user, text)] := by
  rw [sendMessage_calls_eq env text useRAGMode clears s0 ht,
    sendTiers_calls] at hmem
  have hh := mem_expectedCalls_localGen env text useRAGMode
    s0.pendingFollowUp.isSome (s0.conversation ++ [mkUserMessage env text])
    h hmem
  subst hh
  simp [msgPair, mkUserMessage, hsync]

/-- C6 witness -/
theorem sendMessage_tierC_prompt_context_witness :
    ([mkUserMessage baseEnv "Hello"]).map msgPair =
      s00.sessionMessages ++ [(Role.user, "Hello")] :=
  sendMessage_tierC_prompt_context baseEnv "Hello" false 0 s00 (by decide)
    (by decide) [mkUserMessage baseEnv "Hello"] (by decide)

/-- C7: for non-blank text the is-generating signal is raised by the
synchronous prefix, before any tier attempt, and the final state of
every exit path (success, tier exhaustion, cancellation, alerted error)
has it cleared. -/
theorem sendMessage_isGenerating_lifecycle (env : Env) (text : String)
    (useRAGMode : Bool) (clears : Nat) (s0 : EngineState)
    (ht : blankText text = false) :
    (sendPhase1 env text s0).isGenerating = true
    ∧ (sendMessage env text useRAGMode clears s0).1.isGenerating = false :=
  ⟨rfl, sendMessage_isGenerating_false env text useRAGMode clears s0 ht⟩

/-- C7 witness -/
theorem sendMessage_isGenerating_lifecycle_witness :
    (sendPhase1 envAllFail "Hi there" s00).isGenerating = true
    ∧ (sendMessage envAllFail "Hi there" true 0 s00).1.isGenerating = false :=
  sendMessage_isGenerating_lifecycle envAllFail "Hi there" true 0 s00
    (by decide)

/-- C8: a clear bumps the epoch by exactly one, empties the conversation
and the session context together with its pending follow-up, and (when
the storage write succeeds) persists the empty conversation; the profile
and the is-generating flag are untouched. -/
theorem clearConversation_resets_state (saveOk : Bool) (s : EngineState)
    (hsave : saveOk = true) :
    clearConversation saveOk s =
      { conversation := [], storage := [], sessionMessages := []
      , pendingFollowUp := none, userContext := s.userContext
      , epoch := s.epoch + 1, isGenerating := s.isGenerating } := by
  subst hsave
  rfl

/-- C8 witness -/
theorem clearConversation_resets_state_witness :
    clearConversation true
        { conversation := [mkUserMessage baseEnv "Hello"]
        , storage := [mkUserMessage baseEnv "Hello"]
        , sessionMessages := [(Role.user, "Hello")]
        , pendingFollowUp := some { intent := "book_visit"
                                  , partialData := [], missingFields := [] }
        , userContext := "profile", epoch := 4, isGenerating := true } =
      { conversation := [], storage := [], sessionMessages := []
      , pendingFollowUp := none, userContext := "profile"
      , epoch := 5, isGenerating := true } := by
  rw [clearConversation_resets_state true _ rfl]

/-- C9: a blank (empty or whitespace-only) text makes `sendMessage` a
no-op: it returns without raising and the whole engine state —
conversation, storage, session context, pending follow-up, profile,
epoch and is-generating flag — is unchanged. -/
theorem sendMessage_blank_text_noop (env : Env) (text : String)
    (useRAGMode : Bool) (clears : Nat) (s0 : EngineState)
    (ht : blankText text = true) :
    sendMessage env text useRAGMode clears s0 = (s0, SendOutcome.noop, []) := by
  simp [sendMessage, ht]

/-- C9 witness -/
theorem sendMessage_blank_text_noop_witness :
    sendMessage baseEnv "   " true 3 s00 = (s00, SendOutcome.noop, []) :=
  sendMessage_blank_text_noop baseEnv "   " true 3 s00 (by decide)

/-- C10: when the cancellation guard fires (an interleaved clear made the
captured epoch stale) on a run whose tier phase produced a result, the
caller receives no result descriptor. -/
theorem sendMessage_cancelled_returns_nothing (env : Env) (text : String)
    (useRAGMode : Bool) (clears : Nat) (s0 : EngineState) (r : RagResult)
    (ht : blankText text = false) (hc : 1 ≤ clears)
    (hcommit : (sendTiers env text useRAGMode s0).threw = none)
    (hr : (sendTiers env text useRAGMode s0).result = some r) :
    (sendMessage env text useRAGMode clears s0).2.1 = SendOutcome.cancelled
    ∧ ((sendMessage env text useRAGMode clears s0).2.1).returnValue = none := by
  rw [sendMessage_cancelled_eq env text useRAGMode clears s0 ht hc hcommit]
  exact ⟨rfl, rfl⟩

/-- C10 witness -/
theorem sendMessage_cancelled_returns_nothing_witness :
    (sendMessage baseEnv "Hello" false 2 s00).2.1 = SendOutcome.cancelled
    ∧ ((sendMessage baseEnv "Hello" false 2 s00).2.1).returnValue = none :=
  sendMessage_cancelled_returns_nothing baseEnv "Hello" false 2 s00
    { message := some "Hi", intent := some "local_llm", action := none }
    (by decide) (by omega) (by decide) (by decide)

/-- The conversation / session-context synchronisation invariant assumed
by the Tier-C prompt-context theorem is established by `clearConversation`. -/
theorem clearConversation_preserves_sync (ok : Bool) (s : EngineState) :
    (clearConversation ok s).conversation.map msgPair =
      (clearConversation ok s).sessionMessages := rfl

/-- The conversation / session-context synchronisation invariant is
preserved by every `sendMessage` call: both sides receive the user turn
together and the assistant turn together, and the interleaved clears
empty both together. -/
theorem sendMessage_preserves_sync (env : Env) (text : String) (u : Bool)
    (clears : Nat) (s0 : EngineState)
    (hsync : s0.conversation.map msgPair = s0.sessionMessages) :
    (sendMessage env text u clears s0).1.conversation.map msgPair =
      (sendMessage env text u clears s0).1.sessionMessages := by
  by_cases ht : blankText text = true
  · simp [sendMessage, ht, hsync]
  · have ht2 : blankText text = false := by simpa using ht
    simp only [sendMessage, ht2, Bool.false_eq_true, if_false]
    cases clears with
    | zero =>
      cases hth : (sendTiers env text u s0).threw <;>
        simp only [hth] <;>
        cases hcon : (sendTiers env text u s0).consumedFollowUp <;>
          simp [hcon, applyClears, sendPhase1, msgPair, mkUserMessage,
            mkBotMessage, hsync] <;>
          split <;>
          simp [msgPair, mkUserMessage, mkBotMessage, hsync]
    | succ k =>
      cases hth : (sendTiers env text u s0).threw <;>
        simp only [hth] <;>
        cases hcon : (sendTiers env text u s0).consumedFollowUp <;>
          simp [hcon, applyClears_succ_eq, sendPhase1, msgPair,
            mkBotMessage]
